import Mathlib

/-!
Verification of the entity-management and collision core of an
Arkanoid-style breakout game.  The geometry (shape edge queries, AABB
intersection) and the three collision resolvers are embedded from
`utility.hpp`, the brick state machine from `brick.hpp`, and the entity
store from `manager.hpp`.  Floating-point coordinates are modelled as
exact rationals; the operations involved (addition, subtraction,
negation, absolute value, comparison) carry over directly.
-/

namespace Arkanoid

/-- Axis-aligned bounding box: the uniform edge-query contract
(left, right, top, bottom) every shape exposes. -/
structure AABB where
  left : ℚ
  right : ℚ
  top : ℚ
  bottom : ℚ
deriving Repr, DecidableEq

/-- The ball entity: circular shape (center, radius) plus a velocity
vector, from ball.hpp / circle.hpp. -/
structure Ball where
  x : ℚ
  y : ℚ
  radius : ℚ
  vx : ℚ
  vy : ℚ
deriving Repr, DecidableEq

def Ball.left (b : Ball) : ℚ := b.x - b.radius
def Ball.right (b : Ball) : ℚ := b.x + b.radius
def Ball.top (b : Ball) : ℚ := b.y - b.radius
def Ball.bottom (b : Ball) : ℚ := b.y + b.radius

def Ball.toAABB (b : Ball) : AABB :=
  ⟨b.left, b.right, b.top, b.bottom⟩

/-- The brick entity: rectangular shape (center, full width and height),
hit-point counter and the flingFlag of its destruction animation, from
brick.hpp / rectangle.hpp. -/
structure Brick where
  x : ℚ
  y : ℚ
  width : ℚ
  height : ℚ
  hitsRequired : ℤ
  flingFlag : Bool
deriving Repr, DecidableEq

def Brick.left (k : Brick) : ℚ := k.x - k.width / 2
def Brick.right (k : Brick) : ℚ := k.x + k.width / 2
def Brick.top (k : Brick) : ℚ := k.y - k.height / 2
def Brick.bottom (k : Brick) : ℚ := k.y + k.height / 2

def Brick.toAABB (k : Brick) : AABB :=
  ⟨k.left, k.right, k.top, k.bottom⟩

def Brick.isFlying (k : Brick) : Bool := k.flingFlag

def Brick.flingBrick (k : Brick) : Brick := { k with flingFlag := true }

/-- The paddle entity: rectangular shape (center, full width and
height), from paddle.hpp / rectangle.hpp.  Its velocity plays no role
in collision resolution. -/
structure Paddle where
  x : ℚ
  y : ℚ
  width : ℚ
  height : ℚ
deriving Repr, DecidableEq

def Paddle.left (p : Paddle) : ℚ := p.x - p.width / 2
def Paddle.right (p : Paddle) : ℚ := p.x + p.width / 2
def Paddle.top (p : Paddle) : ℚ := p.y - p.height / 2
def Paddle.bottom (p : Paddle) : ℚ := p.y + p.height / 2

def Paddle.toAABB (p : Paddle) : AABB :=
  ⟨p.left, p.right, p.top, p.bottom⟩

/-- The bullet entity: circular shape plus its destroyed flag, from
bullet.hpp / circle.hpp. -/
structure Bullet where
  x : ℚ
  y : ℚ
  radius : ℚ
  destroyed : Bool
deriving Repr, DecidableEq

def Bullet.left (u : Bullet) : ℚ := u.x - u.radius
def Bullet.right (u : Bullet) : ℚ := u.x + u.radius
def Bullet.top (u : Bullet) : ℚ := u.y - u.radius
def Bullet.bottom (u : Bullet) : ℚ := u.y + u.radius

def Bullet.toAABB (u : Bullet) : AABB :=
  ⟨u.left, u.right, u.top, u.bottom⟩

/-- isIntersecting from utility.hpp: the AABB overlap test
mA.right ≥ mB.left ∧ mA.left ≤ mB.right ∧ mA.bottom ≥ mB.top ∧
mA.top ≤ mB.bottom, on the edge queries of the two shapes. -/
def isIntersecting (mA mB : AABB) : Bool :=
  (decide (mA.right ≥ mB.left))
    && (decide (mA.left ≤ mB.right))
    && (decide (mA.bottom ≥ mB.top))
    && (decide (mA.top ≤ mB.bottom))

/-- solvePaddleBallCollision from utility.hpp: no-op unless the paddle
and ball AABBs intersect; otherwise velocity.y becomes minus its
absolute value, and velocity.x becomes minus its absolute value when
the ball center is left of the paddle center, else is left unchanged. -/
def solvePaddleBallCollision (mpaddle : Paddle) (mball : Ball) : Ball :=
  if ¬ (isIntersecting mpaddle.toAABB mball.toAABB = true) then mball
  else
    let vy := -|mball.vy|
    let vx := if mball.x < mpaddle.x then -|mball.vx| else mball.vx
    { mball with vx := vx, vy := vy }

/-- solveBrickBulletCollision from utility.hpp: no-op unless the brick
and bullet AABBs intersect; otherwise decrement hitsRequired, fling the
brick if the counter is now zero, and mark the bullet destroyed
unconditionally.  There is no flying check in this function. -/
def solveBrickBulletCollision (mbrick : Brick) (mbullet : Bullet) :
    Brick × Bullet :=
  if ¬ (isIntersecting mbrick.toAABB mbullet.toAABB = true) then
    (mbrick, mbullet)
  else
    let k1 : Brick := { mbrick with hitsRequired := mbrick.hitsRequired - 1 }
    let k2 : Brick := if k1.hitsRequired = 0 then k1.flingBrick else k1
    (k2, { mbullet with destroyed := true })

/-- solveBallBrickCollision from utility.hpp: no-op when the brick is
flying or the AABBs do not intersect; otherwise decrement hitsRequired
(flinging the brick at zero), compute the four overlaps, select the
smaller of each pair, and modify only the velocity component of the
axis whose selected overlap has strictly smaller absolute value (ties
fall to the vertical branch); the modified component is kept when the
ball is on the near side (ballFromLeft / ballFromTop) and negated
otherwise. -/
def solveBallBrickCollision (mbrick : Brick) (mball : Ball) :
    Brick × Ball :=
  if mbrick.isFlying then (mbrick, mball)
  else if ¬ (isIntersecting mbrick.toAABB mball.toAABB = true) then
    (mbrick, mball)
  else
    let k1 : Brick := { mbrick with hitsRequired := mbrick.hitsRequired - 1 }
    let k2 : Brick := if k1.hitsRequired = 0 then k1.flingBrick else k1
    let overlapLeft : ℚ := mball.right - mbrick.left
    let overlapRight : ℚ := mbrick.right - mball.left
    let overlapTop : ℚ := mball.bottom - mbrick.top
    let overlapBottom : ℚ := mbrick.bottom - mball.top
    let ballFromLeft : Bool := |overlapLeft| < |overlapRight|
    let ballFromTop : Bool := |overlapTop| < |overlapBottom|
    let minOverlapX : ℚ := if ballFromLeft then overlapLeft else overlapRight
    let minOverlapY : ℚ := if ballFromTop then overlapTop else overlapBottom
    if |minOverlapX| < |minOverlapY| then
      (k2, { mball with vx := if ballFromLeft then mball.vx else -mball.vx })
    else
      (k2, { mball with vy := if ballFromTop then mball.vy else -mball.vy })

/-!
The entity store (manager.hpp).  Entities are heap objects referred to
from two containers: the canonical vector of owning pointers and a
type-hash-keyed map of raw pointers.  We model heap objects by natural
identifiers, the shared destroyed flag as a heap map from identifier to
Bool, the canonical vector as a list of identifiers, and the grouped map
as a total function from type hash to list of identifiers (std::map
operator[] default-constructs an empty vector for an absent key, which
the total function with default [] reproduces).
-/

/-- The erase-remove idiom: vector.erase(remove_if(..., p), end) keeps,
in order, exactly the elements not satisfying p. -/
def removeIf (p : Nat → Bool) : List Nat → List Nat
  | [] => []
  | a :: as => if p a then removeIf p as else a :: removeIf p as

/-- State of the Manager from manager.hpp: canonical entity list,
type-grouped index, per-object destroyed flags, and the next fresh
object identifier. -/
structure Manager where
  entities : List Nat
  groups : Nat → List Nat
  flags : Nat → Bool
  nextId : Nat

/-- Manager::create of an entity whose concrete type has hash t: the
fresh object (destroyed flag false) is appended to the group of t and
to the canonical list; the returned value is the reference to the new
object together with the updated store. -/
def Manager.create (m : Manager) (t : Nat) : Nat × Manager :=
  (m.nextId,
    { entities := m.entities ++ [m.nextId]
      groups := fun s => if s = t then m.groups s ++ [m.nextId] else m.groups s
      flags := fun i => if i = m.nextId then false else m.flags i
      nextId := m.nextId + 1 })

/-- Manager::refresh: erase-remove every destroyed entity from every
group of the map and from the canonical vector. -/
def Manager.refresh (m : Manager) : Manager :=
  { m with
    entities := removeIf m.flags m.entities
    groups := fun t => removeIf m.flags (m.groups t) }

/-- Manager::clear: drop both containers. -/
def Manager.clear (m : Manager) : Manager :=
  { m with entities := [], groups := fun _ => [] }

/-- Manager::getAll for the type of hash t: the current grouped vector. -/
def Manager.getAll (m : Manager) (t : Nat) : List Nat :=
  m.groups t

/-- Manager::getSingleEntity for the type of hash t: vector[0], with
the out-of-bounds branch made explicit as none. -/
def Manager.getSingleEntity (m : Manager) (t : Nat) : Option Nat :=
  (m.getAll t)[0]?

/-- The order in which Manager::draw visits entities: the canonical
list, front to back. -/
def Manager.drawOrder (m : Manager) : List Nat :=
  m.entities

/-!  Helper lemmas shared by the entity-store theorems. -/

/-- The erase-remove idiom is the stable filter keeping the elements
not satisfying the predicate. -/
theorem removeIf_eq_filter (p : Nat → Bool) (l : List Nat) :
    removeIf p l = l.filter (fun a => ! p a) := by
  induction l with
  | nil => rfl
  | cons a as ih =>
    simp only [removeIf, List.filter_cons]
    cases h : p a <;> simp [h, ih]

/-- A concrete entity store used to instantiate the store theorems:
two objects in one group, the second marked destroyed. -/
def mEx : Manager :=
  { entities := [0, 1]
    groups := fun _ => [0, 1]
    flags := fun i => i == 1
    nextId := 2 }

/-- C5: Manager.refresh removes exactly the destroyed entities: an
identifier survives in the canonical list iff it was there and its
destroyed flag is false, likewise in every type group, and if the type
index referred only to entities of the canonical list before the call
it still does afterwards. -/
theorem refresh_removes_exactly_destroyed (m : Manager) (t i : Nat)
    (hidx : ∀ s j, j ∈ m.groups s → j ∈ m.entities) :
    (i ∈ m.refresh.entities ↔ (i ∈ m.entities ∧ m.flags i = false)) ∧
    (i ∈ m.refresh.groups t ↔ (i ∈ m.groups t ∧ m.flags i = false)) ∧
    (i ∈ m.refresh.groups t → i ∈ m.refresh.entities) := by
  have hent : i ∈ m.refresh.entities ↔ (i ∈ m.entities ∧ m.flags i = false) := by
    simp [Manager.refresh, removeIf_eq_filter, List.mem_filter]
  have hgrp : i ∈ m.refresh.groups t ↔ (i ∈ m.groups t ∧ m.flags i = false) := by
    simp [Manager.refresh, removeIf_eq_filter, List.mem_filter]
  refine ⟨hent, hgrp, fun h => ?_⟩
  rcases hgrp.mp h with ⟨hmem, hflag⟩
  exact hent.mpr ⟨hidx t i hmem, hflag⟩

/-- Witness for C5 at the concrete store mEx: the surviving object 0 of
group 7 is still in the canonical list after refresh. -/
theorem refresh_removes_exactly_destroyed_witness :
    0 ∈ mEx.refresh.entities :=
  (refresh_removes_exactly_destroyed mEx 7 0 (fun _ _ h => h)).2.2 (by decide)

/-- C7: Manager.create appends the new entity to its type group, so an
immediate getAll of that type ends with the created entity; and after
Manager.clear every getAll returns the empty sequence. -/
theorem create_append_clear_empty :
    (∀ (m : Manager) (t : Nat),
      (m.create t).2.getAll t = m.getAll t ++ [(m.create t).1] ∧
      ((m.create t).2.getAll t).getLast? = some (m.create t).1) ∧
    (∀ (m : Manager) (t : Nat), m.clear.getAll t = []) := by
  refine ⟨fun m t => ⟨?_, ?_⟩, fun m t => rfl⟩
  · simp [Manager.create, Manager.getAll]
  · simp [Manager.create, Manager.getAll]

/-- C8: when the group of a type is non-empty, Manager.getSingleEntity
returns (some of) the first element of getAll — the out-of-bounds
branch of the indexing is unreachable under that precondition. -/
theorem getSingleEntity_first (m : Manager) (t : Nat)
    (h : m.getAll t ≠ []) :
    ∃ x, m.getSingleEntity t = some x ∧ (m.getAll t).head? = some x := by
  rcases hl : m.getAll t with _ | ⟨a, as⟩
  · exact absurd hl h
  · exact ⟨a, by simp [Manager.getSingleEntity, hl], by simp [hl]⟩

/-- Witness for C8 at the concrete store mEx. -/
theorem getSingleEntity_first_witness :
    ∃ x, mEx.getSingleEntity 3 = some x ∧ (mEx.getAll 3).head? = some x :=
  getSingleEntity_first mEx 3 (by decide)

/-- C9: Manager.refresh is idempotent: a second refresh with no
intervening mutation changes neither the canonical list nor any type
group. -/
theorem refresh_idempotent (m : Manager) :
    m.refresh.refresh.entities = m.refresh.entities ∧
    ∀ t, m.refresh.refresh.groups t = m.refresh.groups t := by
  have key : ∀ l : List Nat,
      removeIf m.flags (removeIf m.flags l) = removeIf m.flags l := by
    intro l
    induction l with
    | nil => rfl
    | cons a as ih =>
      by_cases h : m.flags a = true
      · simp [removeIf, h, ih]
      · simp only [Bool.not_eq_true] at h
        simp [removeIf, h, ih]
  exact ⟨key m.entities, fun t => key (m.groups t)⟩

/-- C10: Manager.refresh keeps the surviving entities in their original
relative order: the canonical list (the order the draw pass visits)
becomes its subsequence of non-destroyed identifiers, likewise every
type group, and after any number of refresh calls the draw order is
still a subsequence of the original. -/
theorem refresh_preserves_order (m : Manager) :
    m.refresh.drawOrder = m.drawOrder.filter (fun i => ! m.flags i) ∧
    (∀ t, m.refresh.groups t = (m.groups t).filter (fun i => ! m.flags i)) ∧
    (∀ n, (Nat.iterate Manager.refresh n m).drawOrder.Sublist m.drawOrder) := by
  refine ⟨removeIf_eq_filter m.flags m.entities,
    fun t => removeIf_eq_filter m.flags (m.groups t), fun n => ?_⟩
  induction n with
  | zero => exact List.Sublist.refl _
  | succ k ih =>
    rw [Function.iterate_succ_apply']
    refine List.Sublist.trans ?_ ih
    set x := Nat.iterate Manager.refresh k m
    have : x.refresh.drawOrder = x.drawOrder.filter (fun i => ! x.flags i) :=
      removeIf_eq_filter x.flags x.entities
    rw [this]
    exact List.filter_sublist _

/-- C3: isIntersecting is exactly the closed-interval AABB overlap
predicate, and two boxes that merely touch on a shared coordinate
boundary (here a.right = b.left) count as intersecting. -/
theorem isIntersecting_characterization (a b : AABB) :
    (isIntersecting a b = true ↔
      (a.right ≥ b.left ∧ a.left ≤ b.right ∧ a.bottom ≥ b.top ∧
        a.top ≤ b.bottom)) ∧
    (a.right = b.left → a.left ≤ b.right → a.bottom ≥ b.top →
      a.top ≤ b.bottom → isIntersecting a b = true) := by
  constructor
  · simp [isIntersecting, and_assoc]
  · intro h1 h2 h3 h4
    simp [isIntersecting, h2, h3, h4, ge_iff_le, le_of_eq h1.symm]

/-- Witness for C3: two unit boxes sharing the coordinate line x = 10
intersect. -/
theorem isIntersecting_characterization_witness :
    isIntersecting ⟨0, 10, 0, 10⟩ ⟨10, 20, 0, 10⟩ = true :=
  (isIntersecting_characterization ⟨0, 10, 0, 10⟩ ⟨10, 20, 0, 10⟩).2
    (by norm_num) (by norm_num) (by norm_num) (by norm_num)

/-- C4 (amended): after solvePaddleBallCollision on an intersecting
pair the ball's vertical velocity equals minus its prior absolute
value — nonpositive always, and strictly negative only when the prior
vertical velocity was nonzero; on a non-intersecting pair the ball is
unchanged. -/
theorem paddleBall_velocity_outcome (p : Paddle) (b : Ball) :
    (isIntersecting p.toAABB b.toAABB = true →
      (solvePaddleBallCollision p b).vy = -|b.vy| ∧
      (solvePaddleBallCollision p b).vy ≤ 0 ∧
      (b.vy ≠ 0 → (solvePaddleBallCollision p b).vy < 0)) ∧
    (isIntersecting p.toAABB b.toAABB = false →
      solvePaddleBallCollision p b = b) := by
  constructor
  · intro h
    refine ⟨by simp [solvePaddleBallCollision, h], ?_, ?_⟩
    · simp [solvePaddleBallCollision, h]
    · intro hvy
      simp [solvePaddleBallCollision, h]
      exact hvy
  · intro h
    simp [solvePaddleBallCollision, h]

/-- Witness for C4 at a concrete intersecting paddle/ball pair with
downward prior velocity. -/
theorem paddleBall_velocity_outcome_witness :
    (solvePaddleBallCollision ⟨400, 550, 100, 10⟩ ⟨400, 545, 5, 2, 3⟩).vy =
        -|(3 : ℚ)| ∧
      (solvePaddleBallCollision ⟨400, 550, 100, 10⟩ ⟨400, 545, 5, 2, 3⟩).vy ≤ 0 ∧
      ((3 : ℚ) ≠ 0 →
        (solvePaddleBallCollision ⟨400, 550, 100, 10⟩ ⟨400, 545, 5, 2, 3⟩).vy < 0) :=
  (paddleBall_velocity_outcome ⟨400, 550, 100, 10⟩ ⟨400, 545, 5, 2, 3⟩).1
    (by norm_num [isIntersecting, Paddle.toAABB, Ball.toAABB, Paddle.left,
      Paddle.right, Paddle.top, Paddle.bottom, Ball.left, Ball.right,
      Ball.top, Ball.bottom])

/-- C4 counterexample: a ball with zero vertical velocity sitting on
the paddle center still has zero (not strictly negative) vertical
velocity after the collision is resolved. -/
theorem paddleBall_zero_vy_cex :
    isIntersecting (Paddle.toAABB ⟨100, 100, 100, 10⟩)
        (Ball.toAABB ⟨100, 100, 5, 3, 0⟩) = true ∧
      ¬ ((solvePaddleBallCollision ⟨100, 100, 100, 10⟩
          ⟨100, 100, 5, 3, 0⟩).vy < 0) := by
  norm_num [solvePaddleBallCollision, isIntersecting, Paddle.toAABB,
    Ball.toAABB, Paddle.left, Paddle.right, Paddle.top, Paddle.bottom,
    Ball.left, Ball.right, Ball.top, Ball.bottom]

/-- C6 (amended): a flying brick never resolves a collision against a
ball (solveBallBrickCollision changes neither argument); but
solveBrickBulletCollision performs no flying check, so a bullet
intersecting a still-present flying brick still decrements the brick's
hit-point counter and is destroyed, and only a non-intersecting bullet
is a no-op. -/
theorem flyingBrick_collision_behaviour (k : Brick) (b : Ball) (u : Bullet)
    (hfly : k.isFlying = true) :
    solveBallBrickCollision k b = (k, b) ∧
    (isIntersecting k.toAABB u.toAABB = true →
      (solveBrickBulletCollision k u).1.hitsRequired = k.hitsRequired - 1 ∧
      (solveBrickBulletCollision k u).2.destroyed = true) ∧
    (isIntersecting k.toAABB u.toAABB = false →
      solveBrickBulletCollision k u = (k, u)) := by
  refine ⟨by simp [solveBallBrickCollision, hfly], fun h => ?_, fun h => ?_⟩
  · simp only [solveBrickBulletCollision, h, not_true, if_neg,
      not_false_eq_true, reduceIte]
    constructor
    · split <;> simp [Brick.flingBrick]
    · simp
  · simp [solveBrickBulletCollision, h]

/-- Witness for C6 at a concrete flying brick with an overlapping
bullet. -/
theorem flyingBrick_collision_behaviour_witness :
    solveBallBrickCollision ⟨100, 100, 60, 20, 0, true⟩ ⟨95, 100, 5, 2, 2⟩ =
        (⟨100, 100, 60, 20, 0, true⟩, ⟨95, 100, 5, 2, 2⟩) ∧
      (solveBrickBulletCollision ⟨100, 100, 60, 20, 0, true⟩
          ⟨100, 100, 5, false⟩).1.hitsRequired = (0 : ℤ) - 1 ∧
      (solveBrickBulletCollision ⟨100, 100, 60, 20, 0, true⟩
          ⟨100, 100, 5, false⟩).2.destroyed = true := by
  have h := flyingBrick_collision_behaviour ⟨100, 100, 60, 20, 0, true⟩
    ⟨95, 100, 5, 2, 2⟩ ⟨100, 100, 5, false⟩ (by norm_num [Brick.isFlying])
  exact ⟨h.1, h.2.1 (by norm_num [isIntersecting, Brick.toAABB,
    Bullet.toAABB, Brick.left, Brick.right, Brick.top, Brick.bottom,
    Bullet.left, Bullet.right, Bullet.top, Bullet.bottom])⟩

/-- C6 counterexample: a flying brick (flingFlag true, hit counter
zero) intersecting a live bullet is not a no-op target for the bullet:
the hit counter drops to -1 and the bullet is destroyed. -/
theorem flyingBrick_bullet_not_noop_cex :
    Brick.isFlying ⟨100, 100, 60, 20, 0, true⟩ = true ∧
      isIntersecting (Brick.toAABB ⟨100, 100, 60, 20, 0, true⟩)
        (Bullet.toAABB ⟨100, 100, 5, false⟩) = true ∧
      (solveBrickBulletCollision ⟨100, 100, 60, 20, 0, true⟩
          ⟨100, 100, 5, false⟩).1.hitsRequired = -1 ∧
      (solveBrickBulletCollision ⟨100, 100, 60, 20, 0, true⟩
          ⟨100, 100, 5, false⟩).2.destroyed = true := by
  norm_num [solveBrickBulletCollision, isIntersecting, Brick.isFlying,
    Brick.toAABB, Bullet.toAABB, Brick.left, Brick.right, Brick.top,
    Brick.bottom, Bullet.left, Bullet.right, Bullet.top, Bullet.bottom,
    Brick.flingBrick]

/-- C1: on a non-flying intersecting brick, solveBallBrickCollision
picks the horizontal candidate overlap as the smaller-magnitude member
of the left/right pair and the vertical one likewise; when the chosen
horizontal overlap has strictly smaller magnitude only velocity.x may
change (ties fall to the vertical branch, where only velocity.y may
change); and on the worked example — brick centered (100,100) with
half-size 30 by 10, ball centered (95,100) radius 5 velocity (2,2),
one hit required — velocity.x stays 2 and velocity.y becomes -2. -/
theorem ballBrick_axis_selection (k : Brick) (b : Ball)
    (hfly : k.isFlying = false)
    (hint : isIntersecting k.toAABB b.toAABB = true) :
    (if |(if |b.right - k.left| < |k.right - b.left| then b.right - k.left
          else k.right - b.left)| <
        |(if |b.bottom - k.top| < |k.bottom - b.top| then b.bottom - k.top
          else k.bottom - b.top)| then
      ((solveBallBrickCollision k b).2.vy = b.vy ∧
        ((solveBallBrickCollision k b).2.vx = b.vx ∨
          (solveBallBrickCollision k b).2.vx = -b.vx))
    else
      ((solveBallBrickCollision k b).2.vx = b.vx ∧
        ((solveBallBrickCollision k b).2.vy = b.vy ∨
          (solveBallBrickCollision k b).2.vy = -b.vy))) ∧
    ((solveBallBrickCollision ⟨100, 100, 60, 20, 1, false⟩
        ⟨95, 100, 5, 2, 2⟩).2.vx = 2 ∧
      (solveBallBrickCollision ⟨100, 100, 60, 20, 1, false⟩
        ⟨95, 100, 5, 2, 2⟩).2.vy = -2) := by
  constructor
  · by_cases hbl : |b.right - k.left| < |k.right - b.left| <;>
      by_cases hbt : |b.bottom - k.top| < |k.bottom - b.top| <;>
      simp only [hbl, hbt, if_true, if_false, solveBallBrickCollision, hfly,
        Bool.false_eq_true, hint, not_true, decide_eq_true_eq, ite_true,
        ite_false, if_neg, not_false_eq_true] <;>
      split <;>
      simp_all [solveBallBrickCollision, hfly, hint]
  · norm_num [solveBallBrickCollision, isIntersecting, Ball.toAABB,
      Brick.toAABB, Ball.left, Ball.right, Ball.top, Ball.bottom, Brick.left,
      Brick.right, Brick.top, Brick.bottom, Brick.isFlying, Brick.flingBrick]

/-- Witness for C1 at the worked example. -/
theorem ballBrick_axis_selection_witness :
    (solveBallBrickCollision ⟨100, 100, 60, 20, 1, false⟩
        ⟨95, 100, 5, 2, 2⟩).2.vx = 2 ∧
      (solveBallBrickCollision ⟨100, 100, 60, 20, 1, false⟩
        ⟨95, 100, 5, 2, 2⟩).2.vy = -2 :=
  (ballBrick_axis_selection ⟨100, 100, 60, 20, 1, false⟩ ⟨95, 100, 5, 2, 2⟩
    (by norm_num [Brick.isFlying])
    (by norm_num [isIntersecting, Ball.toAABB, Brick.toAABB, Ball.left,
      Ball.right, Ball.top, Ball.bottom, Brick.left, Brick.right, Brick.top,
      Brick.bottom])).2

/-- C2 (amended): after solveBallBrickCollision on a fresh brick with
one hit required that intersects the ball, the brick is flung and its
hit counter is zero; at most one velocity component is modified: the
perpendicular component of the chosen axis is unchanged, and the
chosen-axis component is negated exactly when the ball approached from
the far side of that axis (ballFromLeft / ballFromTop false) and kept
unchanged otherwise — it is not always sign-flipped. -/
theorem ballBrick_fresh_brick_outcome (k : Brick) (b : Ball)
    (hfly : k.flingFlag = false) (hhits : k.hitsRequired = 1)
    (hint : isIntersecting k.toAABB b.toAABB = true) :
    (solveBallBrickCollision k b).1.flingFlag = true ∧
    (solveBallBrickCollision k b).1.hitsRequired = 0 ∧
    (((solveBallBrickCollision k b).2.vy = b.vy ∧
      (solveBallBrickCollision k b).2.vx =
        (if |b.right - k.left| < |k.right - b.left| then b.vx else -b.vx)) ∨
     ((solveBallBrickCollision k b).2.vx = b.vx ∧
      (solveBallBrickCollision k b).2.vy =
        (if |b.bottom - k.top| < |k.bottom - b.top| then b.vy
          else -b.vy))) := by
  by_cases hbl : |b.right - k.left| < |k.right - b.left| <;>
    by_cases hbt : |b.bottom - k.top| < |k.bottom - b.top| <;>
    simp only [solveBallBrickCollision, Brick.isFlying, hfly, hhits,
      Bool.false_eq_true, hint, not_true, decide_eq_true_eq, hbl, hbt,
      ite_true, ite_false, if_neg, not_false_eq_true, Brick.flingBrick] <;>
    norm_num <;>
    split <;>
    simp_all

/-- Witness for C2 at the worked example of C1: the brick ends up flung
with hit counter zero. -/
theorem ballBrick_fresh_brick_outcome_witness :
    (solveBallBrickCollision ⟨100, 100, 60, 20, 1, false⟩
        ⟨95, 100, 5, 2, 2⟩).1.flingFlag = true ∧
      (solveBallBrickCollision ⟨100, 100, 60, 20, 1, false⟩
        ⟨95, 100, 5, 2, 2⟩).1.hitsRequired = 0 :=
  ⟨(ballBrick_fresh_brick_outcome ⟨100, 100, 60, 20, 1, false⟩
      ⟨95, 100, 5, 2, 2⟩ (by norm_num) (by norm_num)
      (by norm_num [isIntersecting, Ball.toAABB, Brick.toAABB, Ball.left,
        Ball.right, Ball.top, Ball.bottom, Brick.left, Brick.right,
        Brick.top, Brick.bottom])).1,
    (ballBrick_fresh_brick_outcome ⟨100, 100, 60, 20, 1, false⟩
      ⟨95, 100, 5, 2, 2⟩ (by norm_num) (by norm_num)
      (by norm_num [isIntersecting, Ball.toAABB, Brick.toAABB, Ball.left,
        Ball.right, Ball.top, Ball.bottom, Brick.left, Brick.right,
        Brick.top, Brick.bottom])).2.1⟩

/-- C2 counterexample: a fresh one-hit brick hit flush from above by a
downward-moving ball leaves the ball's velocity completely unchanged —
no velocity component is sign-flipped — while the brick is flung, so
"exactly one component flips and the ball moves away" fails. -/
theorem ballBrick_no_flip_cex :
    Brick.flingFlag ⟨100, 100, 60, 20, 1, false⟩ = false ∧
      Brick.hitsRequired ⟨100, 100, 60, 20, 1, false⟩ = 1 ∧
      isIntersecting (Brick.toAABB ⟨100, 100, 60, 20, 1, false⟩)
        (Ball.toAABB ⟨100, 87, 5, 2, 2⟩) = true ∧
      (solveBallBrickCollision ⟨100, 100, 60, 20, 1, false⟩
        ⟨100, 87, 5, 2, 2⟩).2 = ⟨100, 87, 5, 2, 2⟩ ∧
      (solveBallBrickCollision ⟨100, 100, 60, 20, 1, false⟩
        ⟨100, 87, 5, 2, 2⟩).1.flingFlag = true := by
  norm_num [solveBallBrickCollision, isIntersecting, Ball.toAABB,
    Brick.toAABB, Ball.left, Ball.right, Ball.top, Ball.bottom, Brick.left,
    Brick.right, Brick.top, Brick.bottom, Brick.isFlying, Brick.flingBrick]

end Arkanoid
